import Mathlib

/-!
Verification of the externals description model of ESMCI/manage_externals,
a shallow embedding of `manic/externals_description.py`.

Python fragments are translated as follows: a function that may call
`fatal_error msg` or raise an unhandled exception returns a `PyResult`;
the config documents are association lists of sections holding key/value
string pairs; the in-memory entry dictionaries produced by the builders
are structures whose optional keys are `Option` fields; the generic
nested dictionaries compared by the final shape check are a `PyVal` tree.
-/

namespace ManicExt

/-- Result of running a fragment of the Python code: a normal return, a call
to `utils.fatal_error msg` (which terminates description loading), or an
unhandled Python exception such as `KeyError` or `IndexError`. -/
inductive PyResult (α : Type) where
  | ok (a : α)
  | fatal (msg : String)
  | exn
deriving DecidableEq, Repr

/-- Sequencing of Python statements: a fatal error or exception propagates. -/
def PyResult.bind : PyResult α → (α → PyResult β) → PyResult β
  | .ok a, f => f a
  | .fatal m, _ => .fatal m
  | .exn, _ => .exn

/-- True when the computation returned normally. -/
def PyResult.isOk : PyResult α → Bool
  | .ok _ => true
  | _ => false

/-- `DESCRIPTION_SECTION` from the source. -/
def DESCRIPTION_SECTION : String := "externals_description"

/-- `VERSION_ITEM` from the source. -/
def VERSION_ITEM : String := "schema_version"

/-- Modelled from the spec: `global_constants.VERSION_SEPERATOR` is imported
from `manic/global_constants.py`, which is not part of the sources here; the
spec describes the schema version as a dotted `major.minor.patch` string, so
the separator is the dot. -/
def VERSION_SEPERATOR : String := "."

/-- Modelled from the spec: `global_constants.EMPTY_STR` is imported from
`manic/global_constants.py`, which is not part of the sources here; the spec
says absent optional fields are filled with empty-string defaults. -/
def EMPTY_STR : String := ""

/-- `ExternalsDescription.PROTOCOL_EXTERNALS_ONLY`. -/
def PROTOCOL_EXTERNALS_ONLY : String := "externals_only"

/-- `ExternalsDescription.PROTOCOL_GIT`. -/
def PROTOCOL_GIT : String := "git"

/-- `ExternalsDescription.PROTOCOL_SVN`. -/
def PROTOCOL_SVN : String := "svn"

/-- `ExternalsDescription.GIT_SUBMODULES_FILENAME`. -/
def GIT_SUBMODULES_FILENAME : String := ".gitmodules"

/-- `ExternalsDescription.KNOWN_PRROTOCOLS` (sic, name kept from the source). -/
def KNOWN_PRROTOCOLS : List String :=
  [PROTOCOL_GIT, PROTOCOL_SVN, PROTOCOL_EXTERNALS_ONLY]

/-- Python `list[0]` on a split result; both `re.split` and `str.split`
always return at least one element, so the empty case is unreachable. -/
def headD0 : List String → String
  | [] => ""
  | s :: _ => s

/-- Splitting a character list at every separator character, keeping empty
pieces, as Python `re.split` with a character class and `str.split` with a
one-character separator both do (`"a-b"` gives `["a", "b"]`, `""` gives
`[""]`, `"-"` gives `["", ""]`). -/
def splitChars (p : Char → Bool) : List Char → List (List Char)
  | [] => [[]]
  | c :: rest =>
    match splitChars p rest, p c with
    | r, true => [] :: r
    | [], false => [[c]]
    | h :: t, false => (c :: h) :: t

/-- String wrapper for `splitChars`. -/
def pySplit (p : Char → Bool) (s : String) : List String :=
  (splitChars p s.toList).map (fun l => String.mk l)

/-- Removal of leading and trailing characters matching `p`. -/
def trimChars (p : Char → Bool) (cs : List Char) : List Char :=
  ((cs.dropWhile p).reverse.dropWhile p).reverse

/-- Python `str.strip()` with no arguments: whitespace removed at both ends. -/
def pyStrip (s : String) : String :=
  String.mk (trimChars Char.isWhitespace s.toList)

/-- Value of a list of decimal digit characters. -/
def digitsVal : List Char → Nat → Nat
  | [], acc => acc
  | c :: rest, acc => digitsVal rest (acc * 10 + (c.toNat - 48))

/-- Python `int(s)` restricted to the inputs reachable here: the component
strings contain no sign character (everything from the first `-` or `+`
onward was already split off), so `int` succeeds on a non-empty string of
decimal digits after stripping whitespace, and raises `ValueError`
otherwise (digit-group underscores and non-ASCII digits, which Python's
`int` also accepts, are not modelled). -/
def pyIntOpt (s : String) : Option Nat :=
  let cs := (pyStrip s).toList
  if cs ≠ [] ∧ cs.all Char.isDigit then some (digitsVal cs 0) else none

/-- The fatal message issued by `get_cfg_schema_version` for a version string
whose components are not integers. -/
def schemaVersionFormatMsg (version_str : String) : String :=
  "Config file schema version must have integer digits for " ++
  "major, minor and patch versions. " ++
  "Received \"" ++ version_str ++ "\""

/-- `get_cfg_schema_version`, lines 289-326, from the point where the raw
`schema_version` string has been fetched from the document.  It mirrors the
source exactly: `re.split(r"[-+]", s)` drops any build/pre-release suffix,
the remainder is split on `VERSION_SEPERATOR`, and each of the first three
components is converted with Python `int(...)`, where only a `ValueError`
is caught and turned into a fatal error; a missing component raises an
uncaught `IndexError` (modelled as `.exn`), and components beyond the third
are silently ignored. -/
def get_cfg_schema_version (semver_str : String) : PyResult (Nat × Nat × Nat) :=
  let version_list := pySplit (fun c => c == '-' || c == '+') semver_str
  let version_str := headD0 version_list
  let version := pySplit (fun c => c == '.') version_str
  match version with
  | [] => .exn
  | v0 :: rest0 =>
    match pyIntOpt v0 with
    | none => .fatal (schemaVersionFormatMsg version_str)
    | some major =>
      match rest0 with
      | [] => .exn
      | v1 :: rest1 =>
        match pyIntOpt v1 with
        | none => .fatal (schemaVersionFormatMsg version_str)
        | some minor =>
          match rest1 with
          | [] => .exn
          | v2 :: _ =>
            match pyIntOpt v2 with
            | none => .fatal (schemaVersionFormatMsg version_str)
            | some patch => .ok (major, minor, patch)

/-- The `major.minor.patch` string interpolated into the messages of
`_verify_schema_version`. -/
def versionString (v : Nat × Nat × Nat) : String :=
  toString v.1 ++ "." ++ toString v.2.1 ++ "." ++ toString v.2.2

/-- The internal-consistency fatal message of `_verify_schema_version`. -/
def devErrorMsg (schema input : Nat × Nat × Nat) : String :=
  "DEV_ERROR: version \"" ++ versionString schema ++ "\" parser received " ++
  "version \"" ++ versionString input ++ "\" input."

/-- The user-facing compatibility fatal message of `_verify_schema_version`
(the stray quote after `too new.` is in the source). -/
def incompatibleVersionMsg (schema input : Nat × Nat × Nat) : String :=
  "Incompatible schema version:\n" ++
  "  User supplied schema version \"" ++ versionString input ++
  "\" is too new.\"\n" ++
  "  Can only process version \"" ++ versionString schema ++ "\" files and " ++
  "older."

/-- `ExternalsDescription._verify_schema_version`, lines 405-430: the
supported (`_schema_*`) triple against the declared (`_input_*`) triple.
A differing major is the DEV_ERROR fatal, a newer minor is the
incompatibility fatal, and the patch level is deliberately ignored. -/
def verify_schema_version (schema input : Nat × Nat × Nat) : PyResult Unit :=
  if input.1 ≠ schema.1 then .fatal (devErrorMsg schema input)
  else if input.2.1 > schema.2.1 then .fatal (incompatibleVersionMsg schema input)
  else .ok ()

/-- Claim C2: with supported schema version 1.1.0, the gate accepts any
declared version with major 1 and minor at most 1 regardless of patch,
rejects any declared version with minor greater than 1 with the fatal
compatibility message, and rejects any declared version with a different
major with the fatal internal-consistency (DEV_ERROR) message. -/
theorem verify_schema_version_gate :
    (∀ minor patch : Nat, minor ≤ 1 →
        verify_schema_version (1, 1, 0) (1, minor, patch) = .ok ())
    ∧ (∀ minor patch : Nat, 1 < minor →
        verify_schema_version (1, 1, 0) (1, minor, patch)
          = .fatal (incompatibleVersionMsg (1, 1, 0) (1, minor, patch)))
    ∧ (∀ major minor patch : Nat, major ≠ 1 →
        verify_schema_version (1, 1, 0) (major, minor, patch)
          = .fatal (devErrorMsg (1, 1, 0) (major, minor, patch))) := by
  refine ⟨?_, ?_, ?_⟩
  · intro minor patch h
    simp only [verify_schema_version]
    rw [if_neg (by simp), if_neg (by omega)]
  · intro minor patch h
    simp only [verify_schema_version]
    rw [if_neg (by simp), if_pos (by omega)]
  · intro major minor patch h
    simp only [verify_schema_version]
    rw [if_pos (by simpa using h)]

/-- Witness for C2: the gate accepts declared 1.0.0, 1.1.0 and 1.1.5, and
rejects 1.2.0 (compatibility message) and 2.0.0 (DEV_ERROR message). -/
theorem verify_schema_version_gate_w :
    verify_schema_version (1, 1, 0) (1, 0, 0) = .ok ()
    ∧ verify_schema_version (1, 1, 0) (1, 1, 0) = .ok ()
    ∧ verify_schema_version (1, 1, 0) (1, 1, 5) = .ok ()
    ∧ verify_schema_version (1, 1, 0) (1, 2, 0)
        = .fatal (incompatibleVersionMsg (1, 1, 0) (1, 2, 0))
    ∧ verify_schema_version (1, 1, 0) (2, 0, 0)
        = .fatal (devErrorMsg (1, 1, 0) (2, 0, 0)) :=
  ⟨verify_schema_version_gate.1 0 0 (by decide),
   verify_schema_version_gate.1 1 0 (by decide),
   verify_schema_version_gate.1 1 5 (by decide),
   verify_schema_version_gate.2.1 2 0 (by decide),
   verify_schema_version_gate.2.2 2 0 0 (by decide)⟩

/-- Claim C4: evaluating the version-string parser shows the divergence.  A
non-integer component such as "abc" is indeed turned into the fatal
version-format message, and the `-`/`+` suffix is split off, but a string
with too few components such as "1.2" raises an unhandled `IndexError`
(only `ValueError` is caught), and a string with more than three components
is accepted silently with the extras ignored. -/
theorem get_cfg_schema_version_arity :
    get_cfg_schema_version "1.2" = .exn
    ∧ get_cfg_schema_version "abc" = .fatal (schemaVersionFormatMsg "abc")
    ∧ get_cfg_schema_version "1.2.3-alpha+build" = .ok (1, 2, 3)
    ∧ get_cfg_schema_version "1.2.3.4" = .ok (1, 2, 3)
    ∧ get_cfg_schema_version "1.2.x" = .fatal (schemaVersionFormatMsg "1.2.x") := by
  refine ⟨?_, ?_, ?_, ?_, ?_⟩ <;> decide

/-- Key-name attributes of `ExternalsDescription`. -/
def EXTERNALS : String := "externals"

/-- Key name `BRANCH`. -/
def BRANCH : String := "branch"

/-- Key name `SUBMODULE`. -/
def SUBMODULE : String := "from_submodule"

/-- Key name `HASH`. -/
def HASH : String := "hash"

/-- Key name `PATH`. -/
def PATH : String := "local_path"

/-- Key name `PROTOCOL`. -/
def PROTOCOL : String := "protocol"

/-- Key name `REPO`. -/
def REPO : String := "repo"

/-- Key name `REPO_URL`. -/
def REPO_URL : String := "repo_url"

/-- Key name `REQUIRED`. -/
def REQUIRED : String := "required"

/-- Key name `TAG`. -/
def TAG : String := "tag"

/-- Key name `SPARSE`. -/
def SPARSE : String := "sparse"

/-- Python dictionary lookup on an association list (keys are unique). -/
def lookupKey (k : String) : List (String × α) → Option α
  | [] => none
  | (k2, v) :: rest => if k2 = k then some v else lookupKey k rest

/-- Python dictionary insertion: replace the value of an existing key in
place, otherwise append the binding. -/
def dictInsert (k : String) (v : α) : List (String × α) → List (String × α)
  | [] => [(k, v)]
  | (k2, v2) :: rest =>
    if k2 = k then (k, v) :: rest else (k2, v2) :: dictInsert k v rest

/-- One record of the transient submodule status mapping produced by
`git_submodule_status`: the commit hash, the one-character status flag, and
the optional tag. -/
structure SubStatus where
  hash : String
  status : String
  tag : Option String
deriving DecidableEq

/-- The output-parsing loop of `git_submodule_status`, lines 137-147: each
non-empty line `<flag><hash> <name> [(<tag>)]` contributes one mapping
entry; a non-empty line whose remainder after the flag has no second
space-separated item raises an uncaught `IndexError`. -/
def parse_git_status_go : List String → List (String × SubStatus) →
    PyResult (List (String × SubStatus))
  | [], acc => .ok acc
  | line :: rest, acc =>
    match line.toList with
    | [] => parse_git_status_go rest acc
    | c :: body =>
      match (splitChars (fun ch => ch == ' ') body).map (fun l => String.mk l) with
      | i0 :: i1 :: tl =>
        let tag : Option String := match tl with | t :: _ => some t | [] => none
        parse_git_status_go rest (dictInsert i1 ⟨i0, String.mk [c], tag⟩ acc)
      | _ => .exn

/-- `git_submodule_status`, lines 129-150.  The function saves the current
working directory, changes into `repo_dir`, runs `git submodule status`
(whose outcome, success output or raised failure, is the `git_output`
argument), parses the output, and only then changes back.  The returned
pair is the Python return value together with the process working
directory at the moment control leaves the function: there is no
`try`/`finally`, so any raised error leaves the process in `repo_dir`. -/
def git_submodule_status (repo_dir : String) (git_output : PyResult String)
    (cwd : String) : PyResult (List (String × SubStatus)) × String :=
  match git_output with
  | .fatal m => (.fatal m, repo_dir)
  | .exn => (.exn, repo_dir)
  | .ok out =>
    match parse_git_status_go (pySplit (fun c => c == '\n') out) [] with
    | .ok submodules => (.ok submodules, cwd)
    | .fatal m => (.fatal m, repo_dir)
    | .exn => (.exn, repo_dir)

/-- The warning logged by `parse_submodules_desc_section` for an unknown
key (note: a warning via `logging.warning`, not a fatal error). -/
def unknownPropertyMsg (k file_path : String) : String :=
  "WARNING: Ignoring unknown " ++ k ++ " property, in " ++ file_path

/-- The item loop of `parse_submodules_desc_section`, lines 157-169:
`path` and `url` record the (stripped) value, `branch` is deliberately
ignored, and any other key only logs a warning and is otherwise ignored. -/
def parse_submodules_go (file_path : String) :
    List (String × String) → Option String → Option String → List String →
    (Option String × Option String) × List String
  | [], path, url, warns => ((path, url), warns)
  | (k, v) :: rest, path, url, warns =>
    if pyStrip k = "path" then
      parse_submodules_go file_path rest (some (pyStrip v)) url warns
    else if pyStrip k = "url" then
      parse_submodules_go file_path rest path (some (pyStrip v)) warns
    else if pyStrip k = "branch" then
      parse_submodules_go file_path rest path url warns
    else
      parse_submodules_go file_path rest path url (warns ++ [unknownPropertyMsg k file_path])

/-- `parse_submodules_desc_section`, lines 153-171, returning the found
path and url together with the warnings logged along the way. -/
def parse_submodules_desc_section (section_items : List (String × String))
    (file_path : String) : (Option String × Option String) × List String :=
  parse_submodules_go file_path section_items none none []

/-- Python `section[0:9]`-style slicing. -/
def pyTake (n : Nat) (s : String) : String := String.mk (s.toList.take n)

/-- Python `section[9:]`-style slicing. -/
def pyDrop (n : Nat) (s : String) : String := String.mk (s.toList.drop n)

/-- Python `.strip(' "')` applied to the rest of a `submodule "<name>"`
section header. -/
def stripSectionName (s : String) : String :=
  String.mk (trimChars (fun c => c == ' ' || c == '"') s.toList)

/-- Fatal message for a submodule section without a `path` key. -/
def missingPathMsg (sec_name : String) : String :=
  "Submodule " ++ sec_name ++ " missing path"

/-- Fatal message for a submodule section without a `url` key. -/
def missingUrlMsg (sec_name : String) : String :=
  "Submodule " ++ sec_name ++ " missing url"

/-- Fatal message when a submodule is absent from the live status mapping. -/
def noStatusSectionMsg (submod_name : String) : String :=
  "submodule status has no section, \x27" ++ submod_name ++
  "\x27\nCheck section names in externals config file"

/-- The conversion loop of `read_gitmodules_file`, lines 211-254: every
section whose name starts with `submodule` is converted into a canonical
section (`local_path`, `protocol=git`, `repo_url`, `required=True` and the
live `hash`), other sections are skipped, and the reserved version section
declaring schema 1.0.0 is appended at the end.  The live hash is looked up
first under the section name and then under the declared path; if both are
absent the conversion is fatal.  `configparser.add_section` raises
`ValueError` for the reserved `DEFAULT` name and `DuplicateSectionError`
for an existing section, modelled as `.exn`; the final
`add_section(DESCRIPTION_SECTION)` therefore also raises when a submodule
section was itself named `externals_description`. -/
def convert_gitmodules_go (file_path : String) (submods : List (String × SubStatus)) :
    List (String × List (String × String)) → List (String × List (String × String)) →
    PyResult (List (String × List (String × String)))
  | [], acc =>
    if (acc.map Prod.fst).contains DESCRIPTION_SECTION then .exn
    else .ok (acc ++ [(DESCRIPTION_SECTION, [(VERSION_ITEM, "1.0.0")])])
  | (sec, items) :: rest, acc =>
    if pyTake 9 sec = "submodule" then
      let sec_name := stripSectionName (pyDrop 9 sec)
      if sec_name = "DEFAULT" then .exn
      else if (acc.map Prod.fst).contains sec_name then .exn
      else
        match (parse_submodules_desc_section items file_path).1 with
        | (none, _) => .fatal (missingPathMsg sec_name)
        | (some _, none) => .fatal (missingUrlMsg sec_name)
        | (some path, some url) =>
          let submod_name := if (lookupKey sec_name submods).isSome then sec_name else path
          match lookupKey submod_name submods with
          | some st =>
            convert_gitmodules_go file_path submods rest
              (acc ++ [(sec_name,
                [(PATH, path), (PROTOCOL, "git"), (REPO_URL, url),
                 (REQUIRED, "True"), (HASH, st.hash)])])
          | none => .fatal (noStatusSectionMsg submod_name)
    else convert_gitmodules_go file_path submods rest acc

/-- `read_gitmodules_file`, lines 174-256, from the point where the
`.gitmodules` file has been read into sections and the live submodule
status mapping has been obtained from `git_submodule_status`. -/
def convert_gitmodules (file_path : String)
    (sections : List (String × List (String × String)))
    (submods : List (String × SubStatus)) :
    PyResult (List (String × List (String × String))) :=
  convert_gitmodules_go file_path submods sections []

/-- Claim C8, counterexample: when the subprocess invocation raises, the
exception propagates with the working directory still set to the target
repository, not restored to its original value, so the claim that every
exit path restores the original working directory is false. -/
theorem git_submodule_status_cwd_cex :
    git_submodule_status "/repo" .exn "/orig" = (.exn, "/repo")
    ∧ "/repo" ≠ "/orig" :=
  ⟨rfl, by decide⟩

/-- Claim C8, amended: `git_submodule_status` restores the original working
directory only on the success path; on every failing path (a raising
subprocess invocation or a raising parse of its output) control leaves the
function with the working directory still set to the target repository. -/
theorem git_submodule_status_cwd (repo_dir cwd : String)
    (git_output : PyResult String) :
    ((git_submodule_status repo_dir git_output cwd).1.isOk = true →
      (git_submodule_status repo_dir git_output cwd).2 = cwd)
    ∧ ((git_submodule_status repo_dir git_output cwd).1.isOk = false →
      (git_submodule_status repo_dir git_output cwd).2 = repo_dir) := by
  unfold git_submodule_status
  cases git_output with
  | fatal m => simp [PyResult.isOk]
  | exn => simp [PyResult.isOk]
  | ok out =>
    cases h : parse_git_status_go (pySplit (fun c => c == '\n') out) [] <;>
      simp [PyResult.isOk, h]

/-- Witness for the amended C8: a successful run restores the saved
directory, a raising run leaves the repository directory in place. -/
theorem git_submodule_status_cwd_w :
    (git_submodule_status "/repo" (.ok "") "/orig").2 = "/orig"
    ∧ (git_submodule_status "/repo" .exn "/orig").2 = "/repo" :=
  ⟨(git_submodule_status_cwd "/repo" "/orig" (.ok "")).1 (by decide),
   (git_submodule_status_cwd "/repo" "/orig" .exn).2 (by decide)⟩

/-- Claim C3: converting a submodules manifest with the single section
`submodule "lib"` (path `src/lib`, url `https://x/lib.git`) under the live
status mapping sending `lib` to hash `abc123` yields exactly one external
section `lib` with `local_path=src/lib`, `protocol=git`,
`repo_url=https://x/lib.git`, `required=True` and `hash=abc123`, plus the
reserved version section declaring schema 1.0.0. -/
theorem gitmodules_lib_roundtrip :
    convert_gitmodules ".gitmodules"
      [("submodule \"lib\"", [("path", "src/lib"), ("url", "https://x/lib.git")])]
      [("lib", ⟨"abc123", " ", none⟩)]
    = .ok [("lib",
            [("local_path", "src/lib"), ("protocol", "git"),
             ("repo_url", "https://x/lib.git"), ("required", "True"),
             ("hash", "abc123")]),
           ("externals_description", [("schema_version", "1.0.0")])] := by
  decide

/-- Claim C6, counterexample: a submodule section carrying the unknown key
`fetchrecursesubmodules` is converted successfully (the key is ignored with
a logged warning), so the claim that every unknown key other than `branch`
is a fatal error is false. -/
theorem unknown_submodule_key_cex :
    convert_gitmodules ".gitmodules"
      [("submodule \"lib\"",
        [("path", "p"), ("url", "u"), ("fetchrecursesubmodules", "true")])]
      [("lib", ⟨"h1", " ", none⟩)]
    = .ok [("lib",
            [("local_path", "p"), ("protocol", "git"), ("repo_url", "u"),
             ("required", "True"), ("hash", "h1")]),
           ("externals_description", [("schema_version", "1.0.0")])] := by
  decide

/-- Claim C6, amended: inside a raw submodule section only `path` and `url`
are consumed and `branch` is deliberately ignored; any other key merely
logs an `Ignoring unknown ... property` warning and has no effect on the
parsed result, and parsing continues. -/
theorem unknown_submodule_key_warns (k v file_path : String)
    (items : List (String × String)) (path url : Option String)
    (warns : List String)
    (hp : pyStrip k ≠ "path") (hu : pyStrip k ≠ "url")
    (hb : pyStrip k ≠ "branch") :
    parse_submodules_go file_path ((k, v) :: items) path url warns
      = parse_submodules_go file_path items path url
          (warns ++ [unknownPropertyMsg k file_path]) := by
  simp only [parse_submodules_go]
  rw [if_neg hp, if_neg hu, if_neg hb]

/-- Witness for the amended C6. -/
theorem unknown_submodule_key_warns_w :
    parse_submodules_go "f" [("shallow", "true")] none none []
      = parse_submodules_go "f" [] none none [unknownPropertyMsg "shallow" "f"] :=
  unknown_submodule_key_warns "shallow" "true" "f" [] none none []
    (by decide) (by decide) (by decide)

/-- Claim C10: for a submodule section with a parsed path and url — whose
name is neither the reserved `DEFAULT` nor `externals_description`, either
of which would make `configparser.add_section` raise — the live status is
looked up first under the section name; if that is absent the declared
path is tried; the `submodule status has no section` fatal error is
raised, naming the path, only when both lookups fail. -/
theorem gitmodules_status_fallback
    (file_path sec : String) (items : List (String × String))
    (submods : List (String × SubStatus)) (path url : String)
    (warns : List String)
    (hsec : pyTake 9 sec = "submodule")
    (hparse : parse_submodules_desc_section items file_path
      = ((some path, some url), warns))
    (hdef : stripSectionName (pyDrop 9 sec) ≠ "DEFAULT")
    (hres : stripSectionName (pyDrop 9 sec) ≠ DESCRIPTION_SECTION) :
    (∀ st, lookupKey (stripSectionName (pyDrop 9 sec)) submods = some st →
        convert_gitmodules file_path [(sec, items)] submods
          = .ok [(stripSectionName (pyDrop 9 sec),
                  [(PATH, path), (PROTOCOL, "git"), (REPO_URL, url),
                   (REQUIRED, "True"), (HASH, st.hash)]),
                 (DESCRIPTION_SECTION, [(VERSION_ITEM, "1.0.0")])])
    ∧ (lookupKey (stripSectionName (pyDrop 9 sec)) submods = none →
        ∀ st, lookupKey path submods = some st →
          convert_gitmodules file_path [(sec, items)] submods
            = .ok [(stripSectionName (pyDrop 9 sec),
                    [(PATH, path), (PROTOCOL, "git"), (REPO_URL, url),
                     (REQUIRED, "True"), (HASH, st.hash)]),
                   (DESCRIPTION_SECTION, [(VERSION_ITEM, "1.0.0")])])
    ∧ (lookupKey (stripSectionName (pyDrop 9 sec)) submods = none →
        lookupKey path submods = none →
          convert_gitmodules file_path [(sec, items)] submods
            = .fatal (noStatusSectionMsg path)) := by
  have h1 : (parse_submodules_desc_section items file_path).1
      = (some path, some url) := by rw [hparse]
  refine ⟨?_, ?_, ?_⟩
  · intro st hst
    simp [convert_gitmodules, convert_gitmodules_go, hsec, h1, hst, hdef, hres,
      Ne.symm hres]
  · intro hnone st hst
    simp [convert_gitmodules, convert_gitmodules_go, hsec, h1, hnone, hst,
      hdef, hres, Ne.symm hres]
  · intro hnone1 hnone2
    simp [convert_gitmodules, convert_gitmodules_go, hsec, h1, hnone1, hnone2,
      hdef, hres]

/-- Witness for C10: the section name `lib` is absent from the status
mapping, so the declared path `src/lib` is used for the lookup. -/
theorem gitmodules_status_fallback_w :
    convert_gitmodules ".gitmodules"
      [("submodule \"lib\"", [("path", "src/lib"), ("url", "u")])]
      [("src/lib", ⟨"h2", " ", none⟩)]
    = .ok [("lib",
            [("local_path", "src/lib"), ("protocol", "git"),
             ("repo_url", "u"), ("required", "True"), ("hash", "h2")]),
           ("externals_description", [("schema_version", "1.0.0")])] :=
  (gitmodules_status_fallback ".gitmodules" "submodule \"lib\""
      [("path", "src/lib"), ("url", "u")] [("src/lib", ⟨"h2", " ", none⟩)]
      "src/lib" "u" [] (by decide) (by decide) (by decide) (by decide)).2.1
    (by decide) ⟨"h2", " ", none⟩ (by decide)

/-- The per-repository part of one entry of an externals description as the
builders produce it: a Python dictionary whose keys may be absent, with
string values. -/
structure Repo where
  protocol : Option String
  repo_url : Option String
  tag : Option String
  branch : Option String
  hash : Option String
  sparse : Option String
deriving DecidableEq

/-- One entry of an externals description as the builders produce it:
top-level boolean fields `required` and `from_submodule`, string fields
`local_path` and `externals`, and the nested `repo` dictionary. -/
structure Entry where
  required : Option Bool
  local_path : Option String
  externals : Option String
  from_submodule : Option Bool
  repo : Repo
deriving DecidableEq

/-- The reference count of `_check_data`, lines 478-503: one for each of a
present `tag`, a present `branch`, a present `hash`, and a present and
truthy `from_submodule`. -/
def refCount (e : Entry) : Nat :=
  (if e.repo.tag.isSome then 1 else 0) +
  (if e.repo.branch.isSome then 1 else 0) +
  (if e.repo.hash.isSome then 1 else 0) +
  (if e.from_submodule = some true then 1 else 0)

/-- The `found_refs` string of `_check_data`, built exactly as the source
builds it.  Only the `tag` arm interpolates the value: in the `branch`,
`hash` and `from_submodule` arms the second string literal lacks the `f`
prefix in the source, so the literal text of the placeholders (including a
literal `\x7bfound_refs\x7d`, which also discards the previously
accumulated refs) is appended instead of the values. -/
def foundRefs (e : Entry) : String :=
  let fr0 := ""
  let fr1 := match e.repo.tag with
    | some t => "\"tag = \"" ++ t ++ "\", " ++ fr0
    | none => fr0
  let fr2 := match e.repo.branch with
    | some _ =>
      "\"branch = \x7bself[ext_name][self.REPO][self.BRANCH]\x7d\", \x7bfound_refs\x7d"
    | none => fr1
  let fr3 := match e.repo.hash with
    | some _ =>
      "\"hash = \x7bself[ext_name][self.REPO][self.HASH]\x7d\", \x7bfound_refs\x7d"
    | none => fr2
  let fr4 := if e.from_submodule = some true then
      "\"from_submodule = \x7bself[ext_name][self.SUBMODULE]\x7d\", \x7bfound_refs\x7d"
    else fr3
  fr4

/-- Fatal message for an unknown repository protocol. -/
def unknownProtocolMsg (name proto : String) : String :=
  "Unknown repository protocol \"" ++ proto ++ "\" in \"" ++ name ++ "\"."

/-- Fatal message for an svn repository with a hash. -/
def svnHashMsg (name : String) : String :=
  "In repo description for \"" ++ name ++
  "\". svn repositories may not include the \"hash\" keyword."

/-- Fatal message for `from_submodule` on a non-git repository (the literal
`self.SUBMODULE` text is in the source: that part of the f-string is not
interpolated). -/
def submoduleProtocolMsg (name proto : String) : String :=
  "self.SUBMODULE is only supported with git protocol, \"" ++ name ++
  "\" is defined as an " ++ proto ++ " repository"

/-- The over-specified fatal message of `_check_data`, lines 504-519: the
submodule wording is chosen on mere presence of the `from_submodule` key,
and the refs are reported through `foundRefs`. -/
def overspecifiedMsg (name : String) (e : Entry) : String :=
  "Model description is over specified! " ++
  (if e.from_submodule.isSome then
      "from_submodule is not compatible with \"tag\", \"branch\", or \"hash\" "
    else " Only one of \"tag\", \"branch\", or \"hash\" may be specified ") ++
  "for repo description of \"" ++ name ++ "\"." ++
  "\nFound: " ++ foundRefs e

/-- The under-specified fatal message of `_check_data`, lines 520-526. -/
def underspecifiedMsg (name : String) : String :=
  "Model description is under specified! One of " ++
  "\"tag\", \"branch\", or \"hash\" must be specified for " ++
  "repo description of \"" ++ name ++ "\""

/-- The missing-`repo_url` under-specified fatal message, lines 528-537. -/
def missingRepoUrlMsg (name : String) : String :=
  "Model description is under specified! Must have " ++
  "\"repo_url\" in repo " ++
  "description for \"" ++ name ++ "\""

/-- The `from_submodule`-with-`repo_url` over-specified message, 539-547. -/
def submoduleUrlMsg (name : String) : String :=
  "Model description is over specified! " ++
  "from_submodule keyword is not compatible " ++
  "with repo_url keyword for" ++
  " repo description of \"" ++ name ++ "\""

/-- The `from_submodule`-with-`local_path` over-specified message, 549-556. -/
def submodulePathMsg (name : String) : String :=
  "Model description is over specified! " ++
  "from_submodule keyword is not compatible with " ++
  "local_path keyword for" ++
  " repo description of \"" ++ name ++ "\""

/-- The per-entry body of `ExternalsDescription._check_data`, lines 451-562,
for an entry whose `protocol` key is present with value `proto`, with the
local-URL expansion collaborator (`utils.expand_local_url`) passed in as
`expand`. -/
def check_data_entry_known (expand : String → String → String) (name : String)
    (e : Entry) (proto : String) : PyResult Entry :=
  if proto ∉ KNOWN_PRROTOCOLS then .fatal (unknownProtocolMsg name proto)
    else if proto = PROTOCOL_SVN ∧ e.repo.hash.isSome then .fatal (svnHashMsg name)
    else if proto ≠ PROTOCOL_GIT ∧ e.from_submodule.isSome then
      .fatal (submoduleProtocolMsg name proto)
    else if proto ≠ PROTOCOL_EXTERNALS_ONLY then
      if refCount e > 1 then .fatal (overspecifiedMsg name e)
      else if refCount e < 1 then .fatal (underspecifiedMsg name)
      else if e.repo.repo_url = none ∧ e.from_submodule ≠ some true then
        .fatal (missingRepoUrlMsg name)
      else if e.from_submodule = some true ∧ e.repo.repo_url.isSome then
        .fatal (submoduleUrlMsg name)
      else if e.from_submodule = some true ∧ e.local_path.isSome then
        .fatal (submodulePathMsg name)
      else
        match e.repo.repo_url with
        | some u => .ok { e with repo := { e.repo with repo_url := some (expand u name) } }
        | none => .ok e
    else .ok e

/-- The per-entry body of `_check_data`: reading a missing `protocol` key
raises `KeyError`. -/
def check_data_entry (expand : String → String → String) (name : String)
    (e : Entry) : PyResult Entry :=
  match e.repo.protocol with
  | none => .exn
  | some proto => check_data_entry_known expand name e proto

/-- `ExternalsDescription._check_data` over the whole entry map, processed
in document order; the first fatal error aborts. -/
def check_data (expand : String → String → String) :
    List (String × Entry) → PyResult (List (String × Entry))
  | [] => .ok []
  | (name, e) :: rest =>
    match check_data_entry expand name e with
    | .fatal m => .fatal m
    | .exn => .exn
    | .ok e2 =>
      match check_data expand rest with
      | .ok rest2 => .ok ((name, e2) :: rest2)
      | .fatal m => .fatal m
      | .exn => .exn

/-- The parent repository back-reference, of which `_check_optional` only
consults the protocol. -/
structure ParentRepo where
  protocol : String
deriving DecidableEq

/-- The defaulting step of `_check_optional`, lines 575-589: absent
`externals`, `tag`, `branch`, `hash`, `repo_url` and `sparse` values are
filled with the empty string (`required` and `local_path` are not). -/
def fill_optional_defaults (e : Entry) : Entry :=
  { e with
    externals := some (e.externals.getD EMPTY_STR),
    repo := { e.repo with
      tag := some (e.repo.tag.getD EMPTY_STR),
      branch := some (e.repo.branch.getD EMPTY_STR),
      hash := some (e.repo.hash.getD EMPTY_STR),
      repo_url := some (e.repo.repo_url.getD EMPTY_STR),
      sparse := some (e.repo.sparse.getD EMPTY_STR) } }

/-- Fatal message when `from_submodule` is used without a parent repo. -/
def noParentMsg (field : String) : String :=
  "No parent submodule for \"" ++ field ++ "\""

/-- Fatal message when the parent repository protocol is not git. -/
def parentProtocolMsg (proto : String) : String :=
  "Parent protocol, \"" ++ proto ++ "\", does not support submodules"

/-- Fatal message when the entry is not found in the parent's submodules. -/
def submoduleNotFoundMsg (field : String) : String :=
  "Cannot checkout \"" ++ field ++ "\" as a submodule, " ++
  "repo not found in " ++ GIT_SUBMODULES_FILENAME ++ " file"

/-- `ExternalsDescription._repo_config_from_submodule`, lines 630-658.  The
lazy load of the parent's submodules manifest (reading the manifest file
and building an externals description from it) is passed in as the `load`
outcome; once loaded it is cached in `cache` across entries.  A found entry
whose `repo_url`, `local_path` or `hash` key is absent would raise
`KeyError`. -/
def repo_config_from_submodule (load : PyResult (List (String × Entry)))
    (field : String) (cache : Option (List (String × Entry))) :
    PyResult (Option (String × String × String) × List (String × Entry)) :=
  match cache with
  | some desc =>
    (match lookupKey field desc with
     | none => .ok (none, desc)
     | some ext =>
       match ext.repo.repo_url, ext.local_path, ext.repo.hash with
       | some u, some p, some h => .ok (some (u, p, h), desc)
       | _, _, _ => .exn)
  | none =>
    match load with
    | .fatal m => .fatal m
    | .exn => .exn
    | .ok desc =>
      (match lookupKey field desc with
       | none => .ok (none, desc)
       | some ext =>
         match ext.repo.repo_url, ext.local_path, ext.repo.hash with
         | some u, some p, some h => .ok (some (u, p, h), desc)
         | _, _, _ => .exn)

/-- The per-entry body of `ExternalsDescription._check_optional`, lines
574-628.  When the `from_submodule` key is present — with either value —
the parent repository is required, its protocol must be git, and on a
successful lookup the entry's `repo_url`, `hash` and `local_path` are
overwritten with the values resolved from the parent's submodules
manifest; when the key is absent it is defaulted to `False`. -/
def check_optional_entry (parent : Option ParentRepo)
    (load : PyResult (List (String × Entry))) (field : String) (e0 : Entry)
    (cache : Option (List (String × Entry))) :
    PyResult (Entry × Option (List (String × Entry))) :=
  let e := fill_optional_defaults e0
  match e.from_submodule with
  | none => .ok ({ e with from_submodule := some false }, cache)
  | some _ =>
    match parent with
    | none => .fatal (noParentMsg field)
    | some p =>
      if p.protocol ≠ PROTOCOL_GIT then .fatal (parentProtocolMsg p.protocol)
      else
        match repo_config_from_submodule load field cache with
        | .fatal m => .fatal m
        | .exn => .exn
        | .ok (none, _desc) => .fatal (submoduleNotFoundMsg field)
        | .ok (some (repo_url, repo_path, ref_hash), desc) =>
          .ok ({ e with
            local_path := some repo_path,
            repo := { e.repo with
              repo_url := some repo_url,
              hash := some ref_hash } }, some desc)

/-- `ExternalsDescription._check_optional` over the whole entry map, the
submodules-manifest cache threaded through the entries in order. -/
def check_optional_go (parent : Option ParentRepo)
    (load : PyResult (List (String × Entry))) :
    List (String × Entry) → Option (List (String × Entry)) →
    PyResult (List (String × Entry))
  | [], _ => .ok []
  | (field, e) :: rest, cache =>
    match check_optional_entry parent load field e cache with
    | .fatal m => .fatal m
    | .exn => .exn
    | .ok (e2, cache2) =>
      match check_optional_go parent load rest cache2 with
      | .ok rest2 => .ok ((field, e2) :: rest2)
      | .fatal m => .fatal m
      | .exn => .exn

/-- `ExternalsDescription._check_optional`: the cache starts empty. -/
def check_optional (parent : Option ParentRepo)
    (load : PyResult (List (String × Entry)))
    (desc : List (String × Entry)) : PyResult (List (String × Entry)) :=
  check_optional_go parent load desc none

/-- A Python value as `_validate` sees it: a string, a boolean, or a
nested string-keyed dictionary. -/
inductive PyVal where
  | str (s : String)
  | bool (b : Bool)
  | dict (d : List (String × PyVal))

/-- `isinstance(data, type(schema))` for the non-dict leg of
`validate_data_struct`: the two values have the same runtime type. -/
def sameKind : PyVal → PyVal → Bool
  | .str _, .str _ => true
  | .bool _, .bool _ => true
  | .dict _, .dict _ => true
  | _, _ => false

mutual
/-- `validate_data_struct` of `ExternalsDescription._validate`, lines
685-716: two dictionaries recurse through the schema's keys, anything else
compares runtime types.  Note the recursion only requires the schema's
keys to be present and valid in the data: keys of the data absent from the
schema are not examined (they are only printed by the diagnostics). -/
def validate_data_struct : PyVal → PyVal → Bool
  | .dict schema, .dict data => validate_keys schema data true true
  | schema, data => sameKind schema data

/-- The `for key in schema` loop of `validate_data_struct` with its
`in_ref` and `valid` accumulators: `in_ref` records that every schema key
seen so far is present in the data, and the recursive validation of a
key's value only runs while `in_ref` still holds. -/
def validate_keys : List (String × PyVal) → List (String × PyVal) → Bool → Bool → Bool
  | [], _, in_ref, valid => in_ref && valid
  | (k, sv) :: rest, data, in_ref, valid =>
    match lookupKey k data with
    | none => validate_keys rest data false valid
    | some dv =>
      if in_ref then validate_keys rest data in_ref (valid && validate_data_struct sv dv)
      else validate_keys rest data in_ref valid
end

/-- The nested `repo` part of `ExternalsDescription._source_schema`. -/
def repo_schema : PyVal :=
  .dict [(PROTOCOL, .str "string"), (REPO_URL, .str "string"),
         (TAG, .str "string"), (BRANCH, .str "string"),
         (HASH, .str "string"), (SPARSE, .str "string")]

/-- `ExternalsDescription._source_schema`. -/
def source_schema : PyVal :=
  .dict [(REQUIRED, .bool true), (PATH, .str "string"),
         (EXTERNALS, .str "string"), (SUBMODULE, .bool true),
         (REPO, repo_schema)]

/-- The fatal message of `_validate` for an entry that fails the check. -/
def didNotValidateMsg (field : String) : String :=
  "ERROR: source for \"" ++ field ++ "\" did not validate"

/-- `ExternalsDescription._validate`, lines 718-724, over a map of generic
Python values: every entry is compared against `_source_schema` and the
first failure is fatal. -/
def validate_desc_py : List (String × PyVal) → PyResult Unit
  | [] => .ok ()
  | (field, d) :: rest =>
    if validate_data_struct source_schema d then validate_desc_py rest
    else .fatal (didNotValidateMsg field)

/-- The possibly-absent fields of a builder-produced entry rendered back as
the Python dictionary `_validate` walks: an absent field contributes no
key. -/
def optPairs (k : String) (f : α → PyVal) : Option α → List (String × PyVal)
  | none => []
  | some v => [(k, f v)]

/-- The nested `repo` dictionary of an entry as a Python value. -/
def repoToPyVal (r : Repo) : PyVal :=
  .dict (optPairs PROTOCOL .str r.protocol ++ optPairs REPO_URL .str r.repo_url ++
         optPairs TAG .str r.tag ++ optPairs BRANCH .str r.branch ++
         optPairs HASH .str r.hash ++ optPairs SPARSE .str r.sparse)

/-- An entry as the Python dictionary `_validate` walks. -/
def entryToPyVal (e : Entry) : PyVal :=
  .dict (optPairs REQUIRED .bool e.required ++ optPairs PATH .str e.local_path ++
         optPairs EXTERNALS .str e.externals ++
         optPairs SUBMODULE .bool e.from_submodule ++
         [(REPO, repoToPyVal e.repo)])

/-- `_validate` applied to a map of builder-produced entries. -/
def validate_entries (desc : List (String × Entry)) : PyResult Unit :=
  validate_desc_py (desc.map (fun p => (p.1, entryToPyVal p.2)))

/-- `ExternalsDescription._check_user_input`, lines 432-446: the three
validation phases run in order on the same entry map, each aborting the
construction on the first fatal error. -/
def check_user_input (expand : String → String → String)
    (parent : Option ParentRepo) (load : PyResult (List (String × Entry)))
    (desc : List (String × Entry)) : PyResult (List (String × Entry)) :=
  (check_data expand desc).bind fun d1 =>
    (check_optional parent load d1).bind fun d2 =>
      (validate_entries d2).bind fun _ => .ok d2

/-- What the loop of `validate_data_struct` checks for one schema key: the
key is present in the data and its value validates against the schema
value. -/
def schemaKeyOk (data : List (String × PyVal)) (kv : String × PyVal) : Bool :=
  match lookupKey kv.1 data with
  | some dv => validate_data_struct kv.2 dv
  | none => false

/-- The key is present with a boolean value. -/
def keyIsBool (m : List (String × PyVal)) (k : String) : Bool :=
  match lookupKey k m with
  | some (.bool _) => true
  | _ => false

/-- The key is present with a string value. -/
def keyIsStr (m : List (String × PyVal)) (k : String) : Bool :=
  match lookupKey k m with
  | some (.str _) => true
  | _ => false

/-- The required shape of the nested `repo` dictionary: the six repo keys
present with string values. -/
def repoShape (r : List (String × PyVal)) : Bool :=
  keyIsStr r PROTOCOL && keyIsStr r REPO_URL && keyIsStr r TAG &&
  keyIsStr r BRANCH && keyIsStr r HASH && keyIsStr r SPARSE

/-- The key is present with a dictionary value of the repo shape. -/
def keyIsRepo (m : List (String × PyVal)) (k : String) : Bool :=
  match lookupKey k m with
  | some (.dict r) => repoShape r
  | _ => false

/-- The shape `_validate` actually requires of one entry: every key of the
schema tree present with the right runtime type — and nothing about keys
of the entry that are not in the schema. -/
def requiredShape (d : PyVal) : Bool :=
  match d with
  | .dict m =>
    keyIsBool m REQUIRED && keyIsStr m PATH && keyIsStr m EXTERNALS &&
    keyIsBool m SUBMODULE && keyIsRepo m REPO
  | _ => false

theorem validate_keys_eq (kvs : List (String × PyVal))
    (data : List (String × PyVal)) (in_ref valid : Bool) :
    validate_keys kvs data in_ref valid
      = (in_ref && valid && kvs.all (schemaKeyOk data)) := by
  induction kvs generalizing in_ref valid with
  | nil => simp [validate_keys]
  | cons hd tl ih =>
    obtain ⟨k, sv⟩ := hd
    simp only [validate_keys, List.all_cons]
    cases h : lookupKey k data with
    | none =>
      rw [ih]
      simp [schemaKeyOk, h]
    | some dv =>
      cases in_ref <;> cases valid <;> cases hv : validate_data_struct sv dv <;>
        simp [ih, schemaKeyOk, h, hv]

theorem schemaKeyOk_bool (data : List (String × PyVal)) (k : String) (b : Bool) :
    schemaKeyOk data (k, .bool b) = keyIsBool data k := by
  unfold schemaKeyOk keyIsBool
  cases h : lookupKey k data with
  | none => rfl
  | some dv => cases dv <;> simp [validate_data_struct, sameKind]

theorem schemaKeyOk_str (data : List (String × PyVal)) (k s : String) :
    schemaKeyOk data (k, .str s) = keyIsStr data k := by
  unfold schemaKeyOk keyIsStr
  cases h : lookupKey k data with
  | none => rfl
  | some dv => cases dv <;> simp [validate_data_struct, sameKind]

theorem validate_repo_schema (dv : PyVal) :
    validate_data_struct repo_schema dv
      = (match dv with | .dict r => repoShape r | _ => false) := by
  cases dv with
  | str s => simp [repo_schema, validate_data_struct, sameKind]
  | bool b => simp [repo_schema, validate_data_struct, sameKind]
  | dict r =>
    simp only [repo_schema, validate_data_struct, validate_keys_eq,
      List.all_cons, List.all_nil, schemaKeyOk_str, repoShape]
    simp [Bool.and_assoc]

theorem schemaKeyOk_repo (m : List (String × PyVal)) (k : String) :
    schemaKeyOk m (k, repo_schema) = keyIsRepo m k := by
  unfold schemaKeyOk keyIsRepo
  cases h : lookupKey k m with
  | none => rfl
  | some dv => cases dv <;> simp [validate_repo_schema]

theorem validate_data_struct_shape (d : PyVal) :
    validate_data_struct source_schema d = requiredShape d := by
  cases d with
  | str s => simp [source_schema, validate_data_struct, sameKind, requiredShape]
  | bool b => simp [source_schema, validate_data_struct, sameKind, requiredShape]
  | dict m =>
    simp only [source_schema, validate_data_struct, validate_keys_eq,
      List.all_cons, List.all_nil, schemaKeyOk_bool, schemaKeyOk_str,
      schemaKeyOk_repo, requiredShape]
    simp [Bool.and_assoc]

/-- An entry dictionary that carries all the required keys with the
correct types plus one extra key `note`. -/
def entryWithExtraKey : PyVal :=
  .dict [("required", .bool true), ("local_path", .str "p"),
         ("externals", .str ""), ("from_submodule", .bool false),
         ("repo", .dict [("protocol", .str "git"), ("repo_url", .str "u"),
                         ("tag", .str "t"), ("branch", .str ""),
                         ("hash", .str ""), ("sparse", .str "")]),
         ("note", .str "extra")]

/-- Claim C5, counterexample: `_validate` accepts an entry that has all
required keys with correct types plus one extra key, so the claim that an
extra key is rejected is false. -/
theorem validate_extra_key_cex :
    validate_desc_py [("x", entryWithExtraKey)] = .ok () := by
  have h : validate_data_struct source_schema entryWithExtraKey = true := by
    rw [validate_data_struct_shape]; decide
  simp [validate_desc_py, h]

/-- Claim C5, amended: `_validate` rejects exactly the entries in which a
key of the required-field schema tree is missing or has a mismatched
runtime type at some level; extra keys in an entry are not checked (they
are only printed in the diagnostics when a real mismatch occurs). -/
theorem validate_shape_characterization (desc : List (String × PyVal)) :
    validate_desc_py desc = .ok () ↔ ∀ p ∈ desc, requiredShape p.2 = true := by
  induction desc with
  | nil => simp [validate_desc_py]
  | cons hd tl ih =>
    obtain ⟨field, d⟩ := hd
    simp only [validate_desc_py, validate_data_struct_shape]
    cases h : requiredShape d with
    | true =>
      rw [if_pos rfl, ih]
      constructor
      · intro hall p hp
        rcases List.mem_cons.mp hp with hp1 | hp2
        · rw [hp1]; exact h
        · exact hall p hp2
      · intro hall p hp
        exact hall p (List.mem_cons_of_mem _ hp)
    | false =>
      rw [if_neg (by simp)]
      constructor
      · intro hfatal; exact absurd hfatal (by simp)
      · intro hall
        have := hall (field, d) (List.mem_cons_self _ _)
        rw [h] at this
        exact absurd this (by simp)

/-- Witness for the amended C5: a well-shaped singleton map passes the
shape check. -/
theorem validate_shape_characterization_w :
    validate_desc_py
      [("x", .dict [("required", .bool true), ("local_path", .str "p"),
                    ("externals", .str ""), ("from_submodule", .bool false),
                    ("repo", .dict [("protocol", .str "git"),
                                    ("repo_url", .str "u"), ("tag", .str "t"),
                                    ("branch", .str ""), ("hash", .str ""),
                                    ("sparse", .str "")])])]
      = .ok () :=
  (validate_shape_characterization _).mpr (by decide)

set_option maxRecDepth 40000 in
/-- Claim C7: evaluating `_check_data` on an entry with both `tag = v1`
and `branch = mybranch` set.  The over-specified fatal message does use the
tag/branch/hash wording (no `from_submodule` key is present), but instead
of enumerating both conflicting fields with their values it contains the
literal placeholder text of the branch arm and a literal
`\x7bfound_refs\x7d` (the continuation string literals lack the `f` prefix
in the source), so neither the value `mybranch` nor the accumulated
`tag = v1` ref appears. -/
theorem overspecified_message_literal :
    check_data_entry (fun u _ => u) "x"
      { required := some true, local_path := some "p", externals := none,
        from_submodule := none,
        repo := { protocol := some "git", repo_url := some "u",
                  tag := some "v1", branch := some "mybranch",
                  hash := none, sparse := none } }
    = .fatal ("Model description is over specified!  Only one of \"tag\", \"branch\", or \"hash\" may be specified for repo description of \"x\".\nFound: \"branch = \x7bself[ext_name][self.REPO][self.BRANCH]\x7d\", \x7bfound_refs\x7d") := by
  decide

/-- Claim C9: whenever the `from_submodule` key is present in an entry —
with either value, `False` included — `_check_optional` requires a parent
repository (fatal error naming the entry if absent), requires the parent's
protocol to be git (fatal error naming the protocol otherwise), and on a
successful lookup in the parent's submodules manifest overwrites the
entry's `repo_url`, `hash` and `local_path` with the resolved values,
discarding any user-supplied url. -/
theorem check_optional_submodule_key (parent : Option ParentRepo)
    (load : PyResult (List (String × Entry))) (field : String) (e : Entry)
    (cache : Option (List (String × Entry))) (b : Bool)
    (hfs : e.from_submodule = some b) :
    (parent = none →
      check_optional_entry parent load field e cache = .fatal (noParentMsg field))
    ∧ (∀ p : ParentRepo, parent = some p → p.protocol ≠ PROTOCOL_GIT →
        check_optional_entry parent load field e cache
          = .fatal (parentProtocolMsg p.protocol))
    ∧ (∀ (p : ParentRepo) (url path hsh : String)
          (desc : List (String × Entry)),
        parent = some p → p.protocol = PROTOCOL_GIT →
        repo_config_from_submodule load field cache
          = .ok (some (url, path, hsh), desc) →
        check_optional_entry parent load field e cache
          = .ok ({ fill_optional_defaults e with
                   local_path := some path,
                   repo := { (fill_optional_defaults e).repo with
                             repo_url := some url, hash := some hsh } },
                 some desc)) := by
  refine ⟨?_, ?_, ?_⟩
  · intro hp
    subst hp
    simp [check_optional_entry, fill_optional_defaults, hfs]
  · intro p hp hproto
    subst hp
    simp [check_optional_entry, fill_optional_defaults, hfs, hproto]
  · intro p url path hsh desc hp hproto hres
    subst hp
    simp [check_optional_entry, fill_optional_defaults, hfs, hproto, hres]

/-- An entry that explicitly declares `from_submodule = False` and its own
`repo_url`. -/
def submoduleFalseEntry : Entry :=
  { required := some true, local_path := none, externals := none,
    from_submodule := some false,
    repo := { protocol := some "git", repo_url := some "user-url",
              tag := none, branch := none, hash := none, sparse := none } }

/-- A fully resolved entry of a parent's submodules description. -/
def resolvedLibEntry : Entry :=
  { required := some true, local_path := some "rp", externals := some "",
    from_submodule := some false,
    repo := { protocol := some "git", repo_url := some "ru",
              tag := some "", branch := some "", hash := some "rh",
              sparse := some "" } }

/-- Witness for C9: with `from_submodule = False` present, a missing parent
is fatal, an svn parent is fatal, and with a git parent the resolved
values overwrite the user-supplied url. -/
theorem check_optional_submodule_key_w :
    check_optional_entry none (.ok []) "x" submoduleFalseEntry none
      = .fatal (noParentMsg "x")
    ∧ check_optional_entry (some ⟨"svn"⟩) (.ok []) "x" submoduleFalseEntry none
      = .fatal (parentProtocolMsg "svn")
    ∧ check_optional_entry (some ⟨"git"⟩) (.ok [("x", resolvedLibEntry)]) "x"
        submoduleFalseEntry none
      = .ok ({ fill_optional_defaults submoduleFalseEntry with
               local_path := some "rp",
               repo := { (fill_optional_defaults submoduleFalseEntry).repo with
                         repo_url := some "ru", hash := some "rh" } },
             some [("x", resolvedLibEntry)]) :=
  ⟨(check_optional_submodule_key none (.ok []) "x" submoduleFalseEntry none
      false rfl).1 rfl,
   (check_optional_submodule_key (some ⟨"svn"⟩) (.ok []) "x" submoduleFalseEntry
      none false rfl).2.1 ⟨"svn"⟩ rfl (by decide),
   (check_optional_submodule_key (some ⟨"git"⟩) (.ok [("x", resolvedLibEntry)])
      "x" submoduleFalseEntry none false rfl).2.2 ⟨"git"⟩ "ru" "rp" "rh"
      [("x", resolvedLibEntry)] rfl rfl (by decide)⟩

/-- The condition claim C1 states for one entry: for a protocol other than
`externals_only`, exactly one of a present `tag`, a present `branch`, a
present `hash` and a truthy `from_submodule`, and a present `repo_url`
unless `from_submodule` is true. -/
def entryRefOk (e : Entry) : Bool :=
  if e.repo.protocol = some PROTOCOL_EXTERNALS_ONLY then true
  else (refCount e == 1) &&
       ((e.from_submodule == some true) || e.repo.repo_url.isSome)

theorem check_data_entry_some (expand : String → String → String)
    (name : String) {e : Entry} {proto : String}
    (hp : e.repo.protocol = some proto) :
    check_data_entry expand name e = check_data_entry_known expand name e proto := by
  unfold check_data_entry
  rw [hp]

theorem check_data_entry_refOk (expand : String → String → String)
    (name : String) {e e2 : Entry}
    (h : check_data_entry expand name e = .ok e2) :
    entryRefOk e = true := by
  cases hp : e.repo.protocol with
  | none => unfold check_data_entry at h; rw [hp] at h; simp at h
  | some proto =>
    rw [check_data_entry_some expand name hp] at h
    unfold check_data_entry_known at h
    unfold entryRefOk
    rw [hp]
    split_ifs at h with h1 h2 h3 h4 h5 h6 h7 h8 h9 <;>
      try exact PyResult.noConfusion h
    · rw [if_neg (by simpa using h4)]
      have hrc : refCount e = 1 := by omega
      simp only [hrc, beq_self_eq_true, Bool.true_and]
      rcases not_and_or.mp h7 with hu | hf
      · simp [Option.ne_none_iff_isSome.mp hu]
      · simp [not_not.mp hf]
    · rw [if_pos (by simp [not_not.mp h4])]

theorem check_data_refOk (expand : String → String → String)
    {desc desc2 : List (String × Entry)}
    (h : check_data expand desc = .ok desc2) :
    ∀ p ∈ desc, entryRefOk p.2 = true := by
  induction desc generalizing desc2 with
  | nil => intro p hp; simp at hp
  | cons hd tl ih =>
    obtain ⟨name, e⟩ := hd
    intro p hp
    unfold check_data at h
    cases h1 : check_data_entry expand name e with
    | fatal m => rw [h1] at h; simp at h
    | exn => rw [h1] at h; simp at h
    | ok e2 =>
      rw [h1] at h
      cases h2 : check_data expand tl with
      | ok tl2 =>
        rcases List.mem_cons.mp hp with hpe | hmem
        · rw [hpe]; exact check_data_entry_refOk expand name h1
        · exact ih h2 p hmem
      | fatal m => rw [h2] at h; simp at h
      | exn => rw [h2] at h; simp at h

theorem check_user_input_data_ok (expand : String → String → String)
    (parent : Option ParentRepo) (load : PyResult (List (String × Entry)))
    {desc desc2 : List (String × Entry)}
    (h : check_user_input expand parent load desc = .ok desc2) :
    ∃ d1, check_data expand desc = .ok d1 := by
  unfold check_user_input at h
  cases hc : check_data expand desc with
  | ok d1 => exact ⟨d1, rfl⟩
  | fatal m => rw [hc] at h; simp [PyResult.bind] at h
  | exn => rw [hc] at h; simp [PyResult.bind] at h

/-- An entry satisfying claim C1's stated condition (exactly one ref: the
hash; a url) whose protocol is `svn`: the pipeline still aborts. -/
def svnHashEntry : Entry :=
  { required := some true, local_path := some "p", externals := none,
    from_submodule := none,
    repo := { protocol := some "svn", repo_url := some "u", tag := none,
              branch := none, hash := some "deadbeef", sparse := none } }

/-- Claim C1, counterexample: the claimed equivalence fails right-to-left.
This entry map satisfies the claim's condition (every entry has exactly one
of tag/branch/hash/from_submodule and a repo_url), yet the full validation
pipeline aborts with the svn-hash incompatibility fatal error. -/
theorem pipeline_exclusivity_cex :
    entryRefOk svnHashEntry = true
    ∧ check_user_input (fun u _ => u) none (.ok []) [("x", svnHashEntry)]
        = .fatal (svnHashMsg "x") := by
  constructor
  · decide
  · decide

/-- Claim C1, amended: success of the full validation pipeline implies that
every entry whose protocol is not `externals_only` has exactly one of
{tag present, branch present, hash present, from_submodule true} and, when
`from_submodule` is absent or false, a present `repo_url`; and for an entry
that passes the earlier protocol checks, a reference count above one is the
over-specified fatal error, a count of zero the under-specified fatal
error, and a missing `repo_url` (with `from_submodule` absent or false) the
under-specified repo_url fatal error.  The converse of the success
direction does not hold (see the counterexample): the pipeline also
enforces the protocol, svn-hash, submodule-compatibility, resolution and
shape checks. -/
theorem pipeline_exclusivity :
    (∀ (expand : String → String → String) (parent : Option ParentRepo)
        (load : PyResult (List (String × Entry)))
        (desc desc2 : List (String × Entry)),
        check_user_input expand parent load desc = .ok desc2 →
        ∀ p ∈ desc, entryRefOk p.2 = true)
    ∧ (∀ (expand : String → String → String) (name : String) (e : Entry)
          (proto : String),
        e.repo.protocol = some proto → proto ∈ KNOWN_PRROTOCOLS →
        ¬(proto = PROTOCOL_SVN ∧ e.repo.hash.isSome = true) →
        ¬(proto ≠ PROTOCOL_GIT ∧ e.from_submodule.isSome = true) →
        proto ≠ PROTOCOL_EXTERNALS_ONLY →
        (1 < refCount e →
          check_data_entry expand name e = .fatal (overspecifiedMsg name e))
        ∧ (refCount e = 0 →
          check_data_entry expand name e = .fatal (underspecifiedMsg name))
        ∧ (refCount e = 1 → e.repo.repo_url = none →
            e.from_submodule ≠ some true →
          check_data_entry expand name e = .fatal (missingRepoUrlMsg name))) := by
  constructor
  · intro expand parent load desc desc2 h p hp
    obtain ⟨d1, hd1⟩ := check_user_input_data_ok expand parent load h
    exact check_data_refOk expand hd1 p hp
  · intro expand name e proto hp hknown hsvn hsub hext
    rw [check_data_entry_some expand name hp]
    unfold check_data_entry_known
    rw [if_neg (not_not_intro hknown), if_neg hsvn, if_neg hsub, if_pos hext]
    refine ⟨?_, ?_, ?_⟩
    · intro h1
      rw [if_pos h1]
    · intro h1
      rw [if_neg (by omega), if_pos (by omega)]
    · intro h1 h2 h3
      rw [if_neg (by omega), if_neg (by omega), if_pos ⟨h2, h3⟩]

/-- A well-formed entry: git protocol, a url and a tag. -/
def goodEntry : Entry :=
  { required := some true, local_path := some "p", externals := none,
    from_submodule := none,
    repo := { protocol := some "git", repo_url := some "u", tag := some "t",
              branch := none, hash := none, sparse := none } }

/-- `goodEntry` after the three validation phases: the optional fields
defaulted and `from_submodule` set to false. -/
def goodEntryValidated : Entry :=
  { required := some true, local_path := some "p", externals := some "",
    from_submodule := some false,
    repo := { protocol := some "git", repo_url := some "u", tag := some "t",
              branch := some "", hash := some "", sparse := some "" } }

theorem goodPipelineRun :
    check_user_input (fun u _ => u) none (.ok []) [("x", goodEntry)]
      = .ok [("x", goodEntryValidated)] := by
  have h1 : check_data (fun u _ => u) [("x", goodEntry)]
      = .ok [("x", goodEntry)] := by decide
  have h2 : check_optional none (.ok []) [("x", goodEntry)]
      = .ok [("x", goodEntryValidated)] := by decide
  have h3 : validate_data_struct source_schema (entryToPyVal goodEntryValidated)
      = true := by
    rw [validate_data_struct_shape]; decide
  unfold check_user_input
  rw [h1]
  simp only [PyResult.bind]
  rw [h2]
  simp only [PyResult.bind]
  unfold validate_entries
  simp [validate_desc_py, h3, PyResult.bind]

/-- An over-specified entry: both a tag and a hash. -/
def overEntry : Entry :=
  { required := some true, local_path := some "p", externals := none,
    from_submodule := none,
    repo := { protocol := some "git", repo_url := some "u", tag := some "t",
              branch := none, hash := some "h", sparse := none } }

/-- An under-specified entry: none of tag, branch, hash, from_submodule. -/
def underEntry : Entry :=
  { required := some true, local_path := some "p", externals := none,
    from_submodule := none,
    repo := { protocol := some "git", repo_url := some "u", tag := none,
              branch := none, hash := none, sparse := none } }

/-- An entry with one ref but no repo_url. -/
def noUrlEntry : Entry :=
  { required := some true, local_path := some "p", externals := none,
    from_submodule := none,
    repo := { protocol := some "git", repo_url := none, tag := some "t",
              branch := none, hash := none, sparse := none } }

/-- Witness for the amended C1: a well-formed description passes the whole
pipeline and satisfies the per-entry condition, and the over-specified,
under-specified and missing-url fatal errors fire on concrete entries. -/
theorem pipeline_exclusivity_w :
    entryRefOk goodEntry = true
    ∧ check_data_entry (fun u _ => u) "x" overEntry
        = .fatal (overspecifiedMsg "x" overEntry)
    ∧ check_data_entry (fun u _ => u) "x" underEntry
        = .fatal (underspecifiedMsg "x")
    ∧ check_data_entry (fun u _ => u) "x" noUrlEntry
        = .fatal (missingRepoUrlMsg "x") :=
  ⟨pipeline_exclusivity.1 (fun u _ => u) none (.ok []) [("x", goodEntry)]
      [("x", goodEntryValidated)] goodPipelineRun ("x", goodEntry) (by simp),
   (pipeline_exclusivity.2 (fun u _ => u) "x" overEntry "git" rfl (by decide)
      (by decide) (by decide) (by decide)).1 (by decide),
   (pipeline_exclusivity.2 (fun u _ => u) "x" underEntry "git" rfl (by decide)
      (by decide) (by decide) (by decide)).2.1 (by decide),
   (pipeline_exclusivity.2 (fun u _ => u) "x" noUrlEntry "git" rfl (by decide)
      (by decide) (by decide) (by decide)).2.2 (by decide) (by decide)
      (by decide)⟩

end ManicExt
